import Mathlib

/-!
Shallow embedding of the Traderhs/Backtesting Python utility scripts:

* `Sources/Py/BarDataReader.py` and `Sources/Py/ParquetReader.py` — load a
  parquet bar table, take 20-row head and tail slices (as copies), print the
  raw slices with the total row count, rewrite the `Open Time` / `Close Time`
  columns of the slices from epoch milliseconds to formatted calendar strings,
  and print the rewritten slices with the total row count again.
* the commented gap-check diagnostic at the bottom of `ParquetReader.py`.
* `Sources/Misc/Python/BarDataReader.py` — prints the first 2000 rows as-is.
* `Sources/Py/Visualization.py` — converts the `Open Time` column of the
  loaded table itself to datetimes and charts from that same table.
* `Sources/Py/test.py` — posts a request, prints the status code, then tries
  `response.json()` and falls back to `response.text` on a decode error.

Machine integers of the source (int64 epoch milliseconds) are modelled as
`Int`; pandas `//`-style floor division on them is `Int.ediv` / `Int.emod`
(identical for the positive divisors used here).
-/

namespace Backtesting

/-- A cell of a pandas column: the parquet bar tables hold int64 epoch
milliseconds; `pd.to_datetime` turns a cell into a datetime, `strftime` into a
string. -/
inductive Value where
  | int (n : Int)
  | str (s : String)
  | dt (year : Int) (month day hour minute second : Nat)
deriving DecidableEq, Repr

/-- UTC calendar fields of an epoch instant, as pandas renders a
`datetime64` value (pandas `to_datetime(..., unit='ms')` attaches no
timezone, so formatting reads the UTC wall clock). -/
structure CivilTime where
  year : Int
  month : Nat
  day : Nat
  hour : Nat
  minute : Nat
  second : Nat
deriving DecidableEq, Repr

/-- Civil date from a count of days since 1970-01-01 (proleptic Gregorian),
the standard era-based conversion used by date libraries. -/
def civilFromDays (z0 : Int) : Int × Nat × Nat :=
  let z := z0 + 719468
  let era := Int.ediv z 146097
  let doe := (Int.emod z 146097).toNat
  let yoe := (doe - doe / 1460 + doe / 36524 - doe / 146096) / 365
  let y := (yoe : Int) + era * 400
  let doy := doe - (365 * yoe + yoe / 4 - yoe / 100)
  let mp := (5 * doy + 2) / 153
  let d := doy - (153 * mp + 2) / 5 + 1
  let m := if mp < 10 then mp + 3 else mp - 9
  (y + (if m ≤ 2 then 1 else 0), m, d)

/-- `pd.to_datetime(v, unit='ms')`: epoch milliseconds to UTC calendar
fields. Pandas stores the instant exactly (ms → ns) and formatting reads the
floor second, so seconds are `ediv ms 1000`. -/
def msToCivil (ms : Int) : CivilTime :=
  let s := Int.ediv ms 1000
  let days := Int.ediv s 86400
  let sod := (Int.emod s 86400).toNat
  let ymd := civilFromDays days
  { year := ymd.1, month := ymd.2.1, day := ymd.2.2,
    hour := sod / 3600, minute := sod % 3600 / 60, second := sod % 60 }

/-- Two-digit zero padding, as strftime's numeric directives print. -/
def pad2 (n : Nat) : String :=
  if n < 10 then "0" ++ toString n else toString n

/-- Year field of `%Y`: at least four digits, zero padded (all the years the
scripts handle are 1970 or later). -/
def pad4 (n : Int) : String :=
  if n < 10 then "000" ++ toString n
  else if n < 100 then "00" ++ toString n
  else if n < 1000 then "0" ++ toString n
  else toString n

/-- One strftime conversion, '%' already consumed. The directives the
scripts use are Y, m, d, H, M, S; an unrecognised conversion such as `%+` is
no strftime directive (glibc copies the two characters through unchanged,
the Windows C runtime the scripts actually run on rejects the format); the
copy-through behaviour is embedded so the pipeline stays total. -/
def directive (c : Char) (t : CivilTime) : String :=
  if c = 'Y' then pad4 t.year
  else if c = 'm' then pad2 t.month
  else if c = 'd' then pad2 t.day
  else if c = 'H' then pad2 t.hour
  else if c = 'M' then pad2 t.minute
  else if c = 'S' then pad2 t.second
  else if c = '%' then "%"
  else "%" ++ String.singleton c

/-- strftime over the format's character list. -/
def strftimeChars : List Char → CivilTime → String
  | [], _ => ""
  | '%' :: c :: rest, t => directive c t ++ strftimeChars rest t
  | c :: rest, t => String.singleton c ++ strftimeChars rest t

/-- `Timestamp.strftime(fmt)` on the civil fields. -/
def strftime (fmt : String) (t : CivilTime) : String :=
  strftimeChars fmt.toList t

/-- A row of a bar table: the two timestamp columns the scripts rewrite, and
the remaining columns (Open, High, Low, Close, Volume, ...) kept as a list. -/
structure Row where
  openTime : Value
  closeTime : Value
  fields : List Value
deriving DecidableEq, Repr

/-- `df.head(n)`: the first `min n (len df)` rows, in order. -/
def headSlice (df : List Row) (n : Nat) : List Row :=
  df.take n

/-- `df.tail(n)`: the last `min n (len df)` rows, in order. -/
def tailSlice (df : List Row) (n : Nat) : List Row :=
  df.drop (df.length - n)

/-- The head/tail window the reader scripts select (`df.head(n).copy()` and
`df.tail(n).copy()`). -/
def selectWindow (df : List Row) (h t : Nat) : List Row × List Row :=
  (headSlice df h, tailSlice df t)

/-- `pd.to_datetime(v, unit='ms')` on one cell: an int64 epoch-millisecond
cell becomes a datetime cell. -/
def toDatetimeMs : Value → Value
  | .int n =>
      let c := msToCivil n
      .dt c.year c.month c.day c.hour c.minute c.second
  | v => v

/-- `.dt.strftime(fmt)` on one cell. -/
def strftimeCell (fmt : String) : Value → Value
  | .dt y mo d h mi s => .str (strftime fmt ⟨y, mo, d, h, mi, s⟩)
  | v => v

/-- One column assignment `col = pd.to_datetime(col, unit='ms').dt.strftime(fmt)`
applied to a cell. -/
def formatTimestampCell (fmt : String) (v : Value) : Value :=
  strftimeCell fmt (toDatetimeMs v)

/-- The timestamp rewrite of one slice: the `Open Time` column with
`openFmt`, the `Close Time` column with `closeFmt`. -/
def formatTimestamps (openFmt closeFmt : String) (rows : List Row) : List Row :=
  rows.map fun r =>
    { r with openTime := formatTimestampCell openFmt r.openTime,
             closeTime := formatTimestampCell closeFmt r.closeTime }

/-- The format string the scripts use on three of the four rewritten
columns: head `Open Time`, tail `Open Time`, tail `Close Time`. -/
def fixedFmt : String := "%Y-%m-%d %H:%M:%S"

/-- The format string the scripts use on the head slice's `Close Time`
column (BarDataReader.py line 23, ParquetReader.py line 18): the minute
directive is written `%+M`. -/
def headCloseFmt : String := "%Y-%m-%d %H:%+M:%S"

/-- The variables of a reader script after the rewrites: the loaded table
`df` and the two rewritten slices. -/
structure ReaderState where
  df : List Row
  head : List Row
  tail : List Row
deriving DecidableEq, Repr

/-- BarDataReader.py / ParquetReader.py lines 17-26 with the slice bounds as
parameters (the scripts pass 20): load `df`, select the window as copies,
rewrite the timestamp columns of the copies. -/
def runReader (df : List Row) (h t : Nat) : ReaderState :=
  let w := selectWindow df h t
  { df := df,
    head := formatTimestamps fixedFmt headCloseFmt w.1,
    tail := formatTimestamps fixedFmt fixedFmt w.2 }

/-- One printed token: a piece of text, a dumped table, or a printed
integer. -/
inductive Out where
  | txt (s : String)
  | table (rows : List Row)
  | num (n : Nat)
deriving DecidableEq, Repr

/-- One `print(label, head, "\n\n", tail, "\n\n" "행: ", len(df), "\n")`
call of the reader scripts. -/
def reportOut (label : String) (headRows tailRows : List Row) (total : Nat) :
    List Out :=
  [.txt label, .table headRows, .txt "\n\n", .table tailRows,
   .txt "\n\n행: ", .num total, .txt "\n"]

/-- Everything a reader script prints: the raw window, a separator line, the
rewritten window; both reports end with `len(df)` of the loaded table. -/
def readerOut (df : List Row) (h t : Nat) : List Out :=
  let st := runReader df h t
  reportOut "원본 데이터\n" (selectWindow df h t).1 (selectWindow df h t).2 df.length
    ++ [.txt (String.mk (List.replicate 130 '='))]
    ++ reportOut "시간 조정 데이터\n" st.head st.tail df.length

/-- The integer a printed token shows, if it is one. -/
def outNum : Out → Option Nat
  | .num n => some n
  | _ => none

/-- The loop body of the gap-check diagnostic (ParquetReader.py lines
32-34): walking the `Open Time` column, append the current value whenever
its delta from the previous value differs from `plus`. -/
def gapScan (plus : Int) : Int → List Int → List Int
  | _, [] => []
  | prev, a :: rest =>
      (if a - prev ≠ plus then [a] else []) ++ gapScan plus a rest

/-- The gap-check diagnostic of ParquetReader.py lines 29-34 on the
`Open Time` column: `plus = col[1] - col[0]` reads the first two values
unconditionally — on a column with fewer than two values that lookup raises
a `KeyError`, modelled as `none` — then the loop collects every value whose
delta from its predecessor differs from `plus`. -/
def findGaps : List Int → Option (List Int)
  | t0 :: t1 :: rest => some (gapScan (t1 - t0) t0 (t1 :: rest))
  | _ => none

/-- The `Open Time` column of a table, as the diagnostic indexes it (the
parquet column is int64; a non-integer cell never occurs there). -/
def openTimeCol (df : List Row) : List Int :=
  df.filterMap fun r => match r.openTime with
    | .int n => some n
    | _ => none

/-- Everything Misc/Python/BarDataReader.py prints (lines 11-17): the label
and the first 2000 rows of the loaded table, untouched — no timestamp
rewrite runs in that script. -/
def miscReaderOut (df : List Row) : List Out :=
  [.txt "변환된 Open Time\n", .table (df.take 2000), .txt "\n"]

/-- The rows a printed token stream dumps first, if any. -/
def shownTable : List Out → Option (List Row)
  | [] => none
  | .table rows :: _ => some rows
  | _ :: rest => shownTable rest

/-- The variables of Visualization.py after line 9: the loaded table with
its `Open Time` column converted in place (`df['Open Time'] =
pd.to_datetime(df['Open Time'], unit='ms')`, no copy taken), and the x-axis
values the chart traces read from that same table. -/
structure VizState where
  df : List Row
  chartX : List Value
deriving DecidableEq, Repr

/-- Visualization.py lines 6-16: load `df`, overwrite its `Open Time`
column with datetimes, build the chart from the overwritten table. -/
def vizRun (df0 : List Row) : VizState :=
  let df := df0.map fun r => { r with openTime := toDatetimeMs r.openTime }
  { df := df, chartX := df.map Row.openTime }

/-- An HTTP response as test.py sees it: the status code and the body
text. -/
structure HttpResponse where
  statusCode : Nat
  text : String

/-- test.py lines 36-40. `response.json()` is `decode` applied to the body
text (`Except.error` when the body is not valid JSON, as the raising call
is third-party library code); the `try`/`except` is the match: a decode
error falls back to printing the raw body text, after the status-code line
has already been printed. -/
def testScriptOut (J : Type) (decode : String → Except String J)
    (render : J → String) (r : HttpResponse) : List Out :=
  [.txt ("Status Code: " ++ toString r.statusCode)]
    ++ [match decode r.text with
        | .ok j => .txt (render j)
        | .error _ => .txt r.text]

/-- The spec's description of the gap sequence, stated independently of the
loop: the `Open Time` values whose delta from their predecessor differs from
the expected delta, in table order (`ot.zip ot.tail` pairs each value with
its successor). -/
def claimedGaps (ot : List Int) (plus : Int) : List Int :=
  (ot.zip ot.tail).filterMap fun p =>
    if p.2 - p.1 ≠ plus then some p.2 else none

/-- A constant-delta `Open Time` column: `n` bars starting at `t0`, spaced
`d` milliseconds apart. -/
def arithTimes (t0 d : Int) : Nat → List Int
  | 0 => []
  | n + 1 => t0 :: arithTimes (t0 + d) d n

/-- A concrete bar row whose timestamp cells hold the given epoch
milliseconds. -/
def sampleRow (n : Int) : Row :=
  { openTime := .int n, closeTime := .int n, fields := [.int 42] }

/-- A one-row table; its timestamp 1567962000000 ms is 2019-09-08 17:00:00
UTC. -/
def sample1 : List Row := [sampleRow 1567962000000]

/-- A two-row table of consecutive hourly bars. -/
def sample2 : List Row := [sampleRow 1567962000000, sampleRow 1567965600000]

/-- A four-row table of consecutive hourly bars. -/
def sample4 : List Row :=
  [sampleRow 1567962000000, sampleRow 1567965600000,
   sampleRow 1567969200000, sampleRow 1567972800000]

/-- The `Open Time` column of a rewritten slice is the cellwise rewrite of
the slice's `Open Time` column. -/
theorem formatTimestamps_openTime (fo fc : String) (rows : List Row) :
    (formatTimestamps fo fc rows).map Row.openTime =
      rows.map fun r => formatTimestampCell fo r.openTime := by
  simp [formatTimestamps, List.map_map]

/-- C1: the claim reads "both the OpenTime and the CloseTime epoch-millisecond
integers are replaced by a calendar string in the fixed format
YYYY-MM-DD HH:MM:SS ... the same format pattern applies to both columns in
both the head and the tail slice". The code is a slip: the head slice's
Close Time is rewritten with '%Y-%m-%d %H:\x25+M:%S' (a stray '+' inside the
minute directive, BarDataReader.py line 23, ParquetReader.py line 18) while
the other three columns use the fixed pattern, so the head Close Time cell
does not come out in the fixed format (here: minute field replaced by the
literal characters of the malformed directive; on the Windows C runtime the
call rejects the format outright). -/
theorem c1_head_close_format_slip :
    headCloseFmt ≠ fixedFmt
      ∧ (runReader sample1 20 20).head.map Row.closeTime =
          [Value.str "2019-09-08 17:%+M:00"]
      ∧ (runReader sample1 20 20).head.map Row.openTime =
          [Value.str "2019-09-08 17:00:00"]
      ∧ (runReader sample1 20 20).tail.map Row.closeTime =
          [Value.str "2019-09-08 17:00:00"]
      ∧ formatTimestampCell fixedFmt (Value.int 1567962000000) =
          Value.str "2019-09-08 17:00:00" := by
  refine ⟨by decide, by decide, by decide, by decide, by decide⟩

/-- C2 counterexample: formatting the epoch-millisecond value 1567962000000
with the scripts' fixed pattern does not give "2019-09-08 13:40:00"; the
whole rewritten one-row window shows "2019-09-08 17:00:00". -/
theorem c2_not_1340 :
    formatTimestampCell fixedFmt (Value.int 1567962000000) ≠
        Value.str "2019-09-08 13:40:00"
      ∧ (formatTimestamps fixedFmt fixedFmt sample1).map Row.openTime =
          [Value.str "2019-09-08 17:00:00"] := by
  refine ⟨by decide, by decide⟩

/-- C2 amended: for every row holding OpenTime = 1567962000000, the rewrite
with the fixed pattern yields exactly "2019-09-08 17:00:00" (UTC) in the
rewritten column. -/
theorem c2_opentime_value (rows : List Row) (r : Row) (hm : r ∈ rows)
    (hv : r.openTime = Value.int 1567962000000) (fc : String) :
    Value.str "2019-09-08 17:00:00" ∈
      (formatTimestamps fixedFmt fc rows).map Row.openTime := by
  rw [formatTimestamps_openTime]
  refine List.mem_map.mpr ⟨r, hm, ?_⟩
  rw [hv]
  decide

/-- C2 witness: the amended statement at the concrete one-row table. -/
theorem c2_opentime_value_witness :
    Value.str "2019-09-08 17:00:00" ∈
      (formatTimestamps fixedFmt fixedFmt sample1).map Row.openTime :=
  c2_opentime_value sample1 (sampleRow 1567962000000) (by decide) (by decide)
    fixedFmt

/-- C3 counterexample: the claim's clause "when h + t2 >= len(t) the two
slices overlap and each reproduces the full table" fails at h = 1, t2 = 2
on a two-row table: 1 + 2 ≥ 2, yet the head slice is one row, not the full
table. -/
theorem c3_overlap_clause_fails :
    1 + 2 ≥ sample2.length
      ∧ (selectWindow sample2 1 2).1 ≠ sample2
      ∧ (selectWindow sample2 1 2).1.length = 1 := by
  refine ⟨by decide, by decide, by decide⟩

/-- C3 amended: the head slice has length min(h, len), the tail slice
length min(t2, len), and each slice reproduces the full table exactly when
its own bound reaches the table length (so head=1000, tail=1000 on a short
table give two full copies, not deduplicated). -/
theorem c3_window_lengths (df : List Row) (h t : Nat) :
    (selectWindow df h t).1.length = min h df.length
      ∧ (selectWindow df h t).2.length = min t df.length
      ∧ (df.length ≤ h → (selectWindow df h t).1 = df)
      ∧ (df.length ≤ t → (selectWindow df h t).2 = df) := by
  refine ⟨?_, ?_, ?_, ?_⟩
  · simp [selectWindow, headSlice]
  · simp [selectWindow, tailSlice]
    omega
  · intro hle
    simp [selectWindow, headSlice, List.take_of_length_le hle]
  · intro hle
    have h0 : df.length - t = 0 := Nat.sub_eq_zero_of_le hle
    simp [selectWindow, tailSlice, h0]

/-- C3 witness: bounds 1000/1000 on the concrete two-row table reproduce the
full table twice. -/
theorem c3_window_lengths_witness :
    (selectWindow sample2 1000 1000).1 = sample2
      ∧ (selectWindow sample2 1000 1000).2 = sample2 :=
  ⟨(c3_window_lengths sample2 1000 1000).2.2.1 (by decide),
   (c3_window_lengths sample2 1000 1000).2.2.2 (by decide)⟩

/-- C4: copy-on-select — after a reader script rewrites the timestamp
columns of its head and tail slices, the loaded table is unchanged, row for
row and field for field; concretely, the rewritten head's OpenTime cells are
calendar strings while the source table still holds the raw epoch
integers. -/
theorem c4_source_table_unchanged :
    (∀ (df : List Row) (h t : Nat), (runReader df h t).df = df)
      ∧ (runReader sample4 2 2).head.map Row.openTime =
          [Value.str "2019-09-08 17:00:00", Value.str "2019-09-08 18:00:00"]
      ∧ sample4.map Row.openTime =
          [Value.int 1567962000000, Value.int 1567965600000,
           Value.int 1567969200000, Value.int 1567972800000] :=
  ⟨fun _ _ _ => rfl, by decide, by decide⟩

/-- Loop body of the gap check against the spec-side characterisation:
walking from `prev` is filtering the consecutive pairs of `prev :: xs`. -/
theorem gapScan_eq_claimedGaps (plus : Int) (xs : List Int) :
    ∀ prev : Int, gapScan plus prev xs = claimedGaps (prev :: xs) plus := by
  induction xs with
  | nil => intro prev; rfl
  | cons x xs ih =>
      intro prev
      simp only [gapScan]
      rw [ih x]
      by_cases hx : x - prev = plus <;>
        simp [claimedGaps, List.filterMap_cons, hx]

/-- C5 counterexample: the gap check on an empty or one-value `Open Time`
column does not produce an empty sequence — the unconditional read of the
first two values fails (modelled as `none`), so the operation is not total
on zero-row and one-row tables. -/
theorem c5_short_table_error :
    findGaps ([] : List Int) = none
      ∧ findGaps [1567962000000] = none
      ∧ findGaps (openTimeCol []) ≠ some []
      ∧ findGaps (openTimeCol sample1) ≠ some [] := by
  refine ⟨by decide, by decide, by decide, by decide⟩

/-- C5 amended: on a column with fewer than two values the gap check fails
at the expected-delta read (`col[1] - col[0]`) instead of returning an empty
sequence. -/
theorem c5_short_table_none (ot : List Int) (h : ot.length < 2) :
    findGaps ot = none := by
  match ot with
  | [] => rfl
  | [_] => rfl
  | _ :: _ :: _ => simp at h; omega

/-- C5 witness: the amended statement at the empty column. -/
theorem c5_short_table_none_witness : findGaps ([] : List Int) = none :=
  c5_short_table_none [] (by decide)

/-- Constant-delta columns make the loop collect nothing. -/
theorem gapScan_arithTimes (d : Int) :
    ∀ (n : Nat) (t0 : Int), gapScan d t0 (arithTimes (t0 + d) d n) = [] := by
  intro n
  induction n with
  | zero => intro t0; rfl
  | succ n ih =>
      intro t0
      show gapScan d t0 ((t0 + d) :: arithTimes (t0 + d + d) d n) = []
      simp only [gapScan, add_sub_cancel_left, ne_eq, not_true_eq_false,
        if_false, List.nil_append]
      exact ih (t0 + d)

/-- C6: on a column with at least two values the gap check takes the delta
of the first two values as expected and returns, in order, exactly the
values whose delta from their predecessor deviates; a constant-delta column
gives the empty sequence, and [t0, t0+d, t0+3d] (d a genuine nonzero bar
interval) gives [t0+3d]. -/
theorem c6_findGaps_deviations :
    (∀ (t0 t1 : Int) (rest : List Int),
        findGaps (t0 :: t1 :: rest) =
          some (claimedGaps (t0 :: t1 :: rest) (t1 - t0)))
      ∧ (∀ (t0 d : Int) (n : Nat), findGaps (arithTimes t0 d (n + 2)) = some [])
      ∧ (∀ t0 d : Int, d ≠ 0 →
          findGaps [t0, t0 + d, t0 + 3 * d] = some [t0 + 3 * d]) := by
  refine ⟨?_, ?_, ?_⟩
  · intro t0 t1 rest
    show some (gapScan (t1 - t0) t0 (t1 :: rest)) = _
    rw [gapScan_eq_claimedGaps]
  · intro t0 d n
    show some (gapScan ((t0 + d) - t0) t0 ((t0 + d) :: arithTimes (t0 + d + d) d n)) =
      some []
    rw [add_sub_cancel_left]
    exact congrArg some (gapScan_arithTimes d (n + 1) t0)
  · intro t0 d hd
    show some (gapScan ((t0 + d) - t0) t0 [t0 + d, t0 + 3 * d]) = _
    rw [add_sub_cancel_left]
    simp only [gapScan, add_sub_cancel_left, ne_eq, not_true_eq_false,
      if_false, List.nil_append, List.append_nil]
    have h2 : t0 + 3 * d - (t0 + d) = 2 * d := by ring
    rw [h2, if_pos (by intro hc; omega)]

/-- C6 witness: the deviating-column example at t0 = 0, d = 3600000 ms. -/
theorem c6_findGaps_deviations_witness :
    findGaps [0, 3600000, 10800000] = some [10800000] := by
  have h := c6_findGaps_deviations.2.2 0 3600000 (by decide)
  simpa using h

/-- C7: both reports a reader script prints end with the row count of the
original unsliced table — the only integers the script prints are `len(df)`,
twice — even when the head and tail slices are shorter; the concrete 4-row
table previewed with bounds 2/2 still reports 4, while the head slice has
2 rows. -/
theorem c7_reported_row_count :
    (∀ (df : List Row) (h t : Nat),
        (readerOut df h t).filterMap outNum = [df.length, df.length])
      ∧ (readerOut sample4 2 2).filterMap outNum = [4, 4]
      ∧ (selectWindow sample4 2 2).1.length = 2
      ∧ (selectWindow sample4 2 2).2.length = 2 := by
  refine ⟨?_, by decide, by decide, by decide⟩
  intro df h t
  simp [readerOut, reportOut, outNum, List.filterMap_cons, List.filterMap_append]

/-- C8: a response body that is not valid JSON is non-fatal — when the
decode errors, the script's output is still the status-code line followed by
the raw response text; nothing terminates and the status line is
unaffected. -/
theorem c8_json_fallback (J : Type) (decode : String → Except String J)
    (render : J → String) (r : HttpResponse) (e : String)
    (h : decode r.text = .error e) :
    testScriptOut J decode render r =
      [Out.txt ("Status Code: " ++ toString r.statusCode), Out.txt r.text] := by
  simp [testScriptOut, h]

/-- C8 witness: a concrete 500 response whose body fails to decode. -/
theorem c8_json_fallback_witness :
    testScriptOut Unit (fun _ => Except.error "Expecting value") (fun _ => "")
        ⟨500, "Internal Server Error"⟩ =
      [Out.txt ("Status Code: " ++ toString 500),
       Out.txt "Internal Server Error"] :=
  c8_json_fallback Unit (fun _ => Except.error "Expecting value") (fun _ => "")
    ⟨500, "Internal Server Error"⟩ "Expecting value" rfl

/-- C9: the capped-prefix previewer prints the first 2000 rows of the loaded
table untouched — the dumped rows are exactly the table's prefix, every row
(hence every OpenTime/CloseTime cell) a row of the source, and on the
concrete table the cells are still the raw epoch-millisecond integers. -/
theorem c9_preview_unconverted :
    (∀ df : List Row, shownTable (miscReaderOut df) = some (df.take 2000))
      ∧ (∀ (df : List Row) (r : Row),
          r ∈ (shownTable (miscReaderOut df)).getD [] → r ∈ df)
      ∧ shownTable (miscReaderOut sample4) = some sample4
      ∧ sample4.map Row.openTime =
          [Value.int 1567962000000, Value.int 1567965600000,
           Value.int 1567969200000, Value.int 1567972800000] := by
  refine ⟨fun df => rfl, ?_, by decide, by decide⟩
  intro df r hr
  exact List.take_subset 2000 df (by simpa [miscReaderOut, shownTable] using hr)

/-- C10: the charting script rewrites the `Open Time` column of the loaded
table itself — no copy is taken — so afterwards that column holds datetime
cells, never epoch-millisecond integers, the chart x-values read those same
converted cells, the other columns are untouched, and the table the chart
uses differs from the loaded one. -/
theorem c10_viz_mutates (df0 : List Row) (ns : List Int)
    (hcol : df0.map Row.openTime = ns.map Value.int) (hne : df0 ≠ []) :
    (vizRun df0).df.map Row.openTime = ns.map (fun n => toDatetimeMs (Value.int n))
      ∧ (vizRun df0).df.map Row.closeTime = df0.map Row.closeTime
      ∧ (vizRun df0).df.map Row.fields = df0.map Row.fields
      ∧ (vizRun df0).chartX = ns.map (fun n => toDatetimeMs (Value.int n))
      ∧ (∀ v ∈ (vizRun df0).chartX, ∀ m : Int, v ≠ Value.int m)
      ∧ (vizRun df0).df ≠ df0 := by
  have hmap : (vizRun df0).df.map Row.openTime =
      (df0.map Row.openTime).map toDatetimeMs := by
    simp [vizRun, List.map_map]
  have h1 : (vizRun df0).df.map Row.openTime =
      ns.map (fun n => toDatetimeMs (Value.int n)) := by
    rw [hmap, hcol]
    simp [List.map_map, Function.comp]
  have h4 : (vizRun df0).chartX = ns.map (fun n => toDatetimeMs (Value.int n)) := by
    show (vizRun df0).df.map Row.openTime = _
    exact h1
  refine ⟨h1, by simp [vizRun, List.map_map], by simp [vizRun, List.map_map],
    h4, ?_, ?_⟩
  · intro v hv m heqv
    rw [h4] at hv
    obtain ⟨n, _, rfl⟩ := List.mem_map.mp hv
    simp [toDatetimeMs] at heqv
  · intro heq
    have hx := congrArg (List.map Row.openTime) heq
    rw [h1, hcol] at hx
    cases ns with
    | nil => exact hne (List.map_eq_nil_iff.mp hcol)
    | cons n ns2 =>
        simp only [List.map_cons] at hx
        injection hx with h5 _
        simp [toDatetimeMs] at h5

/-- C10 witness: on the concrete one-row table the charted table differs
from the loaded one. -/
theorem c10_viz_mutates_witness : (vizRun sample1).df ≠ sample1 :=
  (c10_viz_mutates sample1 [1567962000000] (by decide) (by decide)).2.2.2.2.2

end Backtesting
